import Mathlib

/- Shallow embedding of goxel's cycles renderer bridge (src/cycles.cpp):
voxel-block tessellation into renderer meshes, scene assembly, the
render-key change detector, and the per-frame render session controller.

Collaborator code that is not under src/ (the voxel volume's iteration,
vertex-generation and content-hash primitives, goxel's mat4/quat helpers,
the crc64 checksum, and the cycles engine's session object) is modelled
from the spec; each such definition says so in its doc comment. -/

namespace GoxelCycles

/-- One tessellated vertex (voxel_vertex_t): an integer lattice position
and an RGBA byte color. Modelled from the spec: mesh_generate_vertices
and voxel_vertex_t are not under src/. -/
structure VoxelVertex where
  pos : Int × Int × Int
  color : Nat × Nat × Nat × Nat
deriving DecidableEq, Repr, Inhabited

/-- One visible quad face, the four entries of one group of four in the
flat vertex array that mesh_generate_vertices fills. -/
structure Quad where
  v0 : VoxelVertex
  v1 : VoxelVertex
  v2 : VoxelVertex
  v3 : VoxelVertex
deriving DecidableEq, Repr, Inhabited

/-- The four corners of a quad in emission order. -/
def quadVerts (q : Quad) : List VoxelVertex := [q.v0, q.v1, q.v2, q.v3]

/-- Modelled from the spec: the voxel volume collaborator (not under
src/), exposing block iteration including neighbor context (blocks),
per-block vertex generation (gen, the quads mesh_generate_vertices
writes), and the content hash primitive (key, mesh_get_key). -/
structure Volume where
  blocks : List (Int × Int × Int)
  gen : Int × Int × Int → List Quad
  key : Nat

/-- The cycles mesh built by create_mesh_for_block: vertex positions,
triangle index triples, and the per-corner byte color attribute. -/
structure CMesh where
  verts : List (Int × Int × Int)
  tris : List (Nat × Nat × Nat)
  colors : List (Nat × Nat × Nat × Nat)
deriving DecidableEq, Repr

/-- Embedding of create_mesh_for_block (src/cycles.cpp:108): from the
tessellator output (nb quads, flat vertex array in groups of four) build
the mesh. Per quad i: four vertices from entries 4i..4i+3, the triangles
(4i,4i+1,4i+2) and (4i+2,4i+3,4i); the corner color attribute has 6·nb
entries, entry i reading vertices[i / 6 * 4]. When nb = 0 the code jumps
to the end and returns the mesh with no geometry and no attribute. -/
def create_mesh_for_block (quads : List Quad) : CMesh :=
  let nb := quads.length
  if nb = 0 then { verts := [], tris := [], colors := [] } else
  let flat := (quads.map quadVerts).flatten
  { verts := flat.map VoxelVertex.pos
  , tris := ((List.range nb).map (fun i =>
      [(4 * i, 4 * i + 1, 4 * i + 2), (4 * i + 2, 4 * i + 3, 4 * i)])).flatten
  , colors := (List.range (6 * nb)).map (fun i =>
      (flat.getD (i / 6 * 4) default).color) }

/-- A quaternion with the scalar component first, as goxel stores camera
rotations (rot[0] is the scalar part). -/
structure Quat where
  w : ℚ
  x : ℚ
  y : ℚ
  z : ℚ
deriving DecidableEq, Repr

/-- The slice of goxel camera state that cycles.cpp reads: offset,
rotation quaternion, orbit distance, and the raw bytes of the view and
projection matrices (used only for keying). -/
structure Camera where
  ofs : ℚ × ℚ × ℚ
  rot : Quat
  dist : ℚ
  view_mat : List Nat
  proj_mat : List Nat

/-- The slice of the global editor state (goxel) that cycles.cpp reads. -/
structure Goxel where
  camera : Camera
  render_mesh : Volume

/-- 4 by 4 matrices over the rationals, the idealization of goxel's
float mat4. -/
abbrev Mat4 := Matrix (Fin 4) (Fin 4) ℚ

/-- Modelled from the spec: the translation matrix that mat4_itranslate
composes onto the current matrix (goxel's vec/mat helpers are not under
src/; the spec describes the steps as composed in order, applied to the
identity). -/
def translateM (tx ty tz : ℚ) : Mat4 :=
  !![1, 0, 0, tx; 0, 1, 0, ty; 0, 0, 1, tz; 0, 0, 0, 1]

/-- Modelled from the spec: the axis scaling matrix of mat4_iscale. -/
def scaleM (sx sy sz : ℚ) : Mat4 :=
  !![sx, 0, 0, 0; 0, sy, 0, 0; 0, 0, sz, 0; 0, 0, 0, 1]

/-- Modelled from the spec: the rotation matrix of a quaternion (scalar
component first) that mat4_imul_quat composes onto the current matrix. -/
def quatToMat (q : Quat) : Mat4 :=
  !![1 - 2 * (q.y * q.y + q.z * q.z), 2 * (q.x * q.y - q.z * q.w), 2 * (q.x * q.z + q.y * q.w), 0;
     2 * (q.x * q.y + q.z * q.w), 1 - 2 * (q.x * q.x + q.z * q.z), 2 * (q.y * q.z - q.x * q.w), 0;
     2 * (q.x * q.z - q.y * q.w), 2 * (q.y * q.z + q.x * q.w), 1 - 2 * (q.x * q.x + q.y * q.y), 0;
     0, 0, 0, 1]

/-- Embedding of the camera-matrix computation in create_scene
(src/cycles.cpp:188-201): starting from the identity, translate by the
negated camera offset, multiply by the rotation with its scalar (first)
component sign-inverted, translate by the orbit distance along z, scale
by (1, 1, -1), then transpose the result. -/
def camera_matrix (cam : Camera) : Mat4 :=
  let mat := (1 : Mat4)
  let mat := mat * translateM (-cam.ofs.1) (-cam.ofs.2.1) (-cam.ofs.2.2)
  let rot : Quat := { w := -cam.rot.w, x := cam.rot.x, y := cam.rot.y, z := cam.rot.z }
  let mat := mat * quatToMat rot
  let mat := mat * translateM 0 0 cam.dist
  let mat := mat * scaleM 1 1 (-1)
  Matrix.transpose mat

/-- One scene object: a mesh and its placement transform, a pure
translation to the block position. -/
structure SceneObj where
  mesh : CMesh
  tfm : Int × Int × Int

/-- The parts of the cycles scene that create_scene fills: camera
dimensions and matrix, the mesh list, the object list, and the counts of
shaders (cube shader and light shader) and lights. -/
structure Scene where
  cam_width : Nat
  cam_height : Nat
  cam_matrix : Mat4
  meshes : List CMesh
  objects : List SceneObj
  nshaders : Nat
  nlights : Nat

/-- Embedding of create_scene (src/cycles.cpp:166): camera setup, the
cube shader, then for every iterated block one mesh (pushed into
scene->meshes) and one object placed at the block position — the loop
body runs unconditionally for each block the iterator yields — then the
distant light and its shader. -/
def create_scene (w h : Nat) (g : Goxel) : Scene :=
  let objs := g.render_mesh.blocks.map (fun bp =>
    ({ mesh := create_mesh_for_block (g.render_mesh.gen bp), tfm := bp } : SceneObj))
  { cam_width := w
  , cam_height := h
  , cam_matrix := camera_matrix g.camera
  , meshes := objs.map SceneObj.mesh
  , objects := objs
  , nshaders := 2
  , nlights := 1 }

/-- Embedding of get_render_key (src/cycles.cpp:270): start from the
volume content hash, then fold the raw bytes of the view matrix, then of
the projection matrix, through the incremental checksum, each fold seeded
by the previous result. crc64 itself is goxel utility code not under
src/, so it is kept as a parameter (modelled from the spec: an
incremental checksum seeded by the previous result). -/
def get_render_key (crc64 : Nat → List Nat → Nat) (g : Goxel) : Nat :=
  let key := g.render_mesh.key
  let key := crc64 key g.camera.view_mat
  let key := crc64 key g.camera.proj_mat
  key

/-- Compute device types of the cycles device enumeration. -/
inductive DeviceType where
  | NONE
  | CPU
  | CUDA
  | OPENCL
  | MULTI
deriving DecidableEq, Repr

/-- One enumerated compute device. -/
structure DeviceInfo where
  dtype : DeviceType
deriving DecidableEq, Repr

/-- Embedding of ccl Device type_from_string for the device names the
bridge can ask for. -/
def type_from_string (s : String) : DeviceType :=
  if s = "CPU" then DeviceType.CPU
  else if s = "CUDA" then DeviceType.CUDA
  else if s = "OPENCL" then DeviceType.OPENCL
  else DeviceType.NONE

/-- Session parameters as cycles_init fills them. The device is an
Option: modelled from the spec, which says absence of a CPU match leaves
the device unset (the C++ default-constructed DeviceInfo). -/
structure SessionParams where
  progressive : Bool
  start_resolution : Nat
  device : Option DeviceInfo
  samples : Nat
deriving DecidableEq, Repr

/-- Embedding of cycles_init (src/cycles.cpp:247): take the first
enumerated device whose type equals the CPU type (none leaves the device
unset), and fix the session parameters: progressive, start resolution 64,
20 samples. There is no error path: the function always returns. -/
def cycles_init (devices : List DeviceInfo) : SessionParams :=
  let device_type := type_from_string ("CPU")
  let device_info := devices.find? (fun d => d.dtype == device_type)
  { progressive := true
  , start_resolution := 64
  , device := device_info
  , samples := 20 }

/-- Buffer parameters (g_buffer_params), refreshed from the viewport
rect every frame. -/
structure BufferParams where
  width : Nat
  height : Nat
  full_width : Nat
  full_height : Nat
deriving DecidableEq, Repr

/-- The buffer parameters cycles_render derives from a viewport rect
(x, y, w, h). -/
def mkBufferParams (rect : Int × Int × Nat × Nat) : BufferParams :=
  { width := rect.2.2.1
  , height := rect.2.2.2
  , full_width := rect.2.2.1
  , full_height := rect.2.2.2 }

/-- Modelled from the spec: the live render session, carrying the
parameters it was constructed with, its scene, and the buffer parameters
and sample budget of its last reset. -/
structure Session where
  params : SessionParams
  scene : Scene
  reset_buffer : BufferParams
  reset_samples : Nat
  started : Bool

/-- Engine calls cycles_render makes, recorded in program order. -/
inductive Event where
  | destroySession
  | newSession
  | newScene (w h : Nat)
  | resetSession (buf : BufferParams) (samples : Nat)
  | startSession
  | draw (buf : BufferParams)
  | getStatus
deriving DecidableEq, Repr

/-- The mutable globals of cycles.cpp that cycles_render touches: the
static last_key, the session pointer g_session (none is NULL), and
g_buffer_params. -/
structure RState where
  last_key : Nat
  g_session : Option Session
  g_buffer_params : BufferParams

/-- The state at program start: last_key is the static initializer 0, no
session exists, buffer parameters default-constructed. -/
def init_rstate : RState :=
  { last_key := 0
  , g_session := none
  , g_buffer_params := { width := 0, height := 0, full_width := 0, full_height := 0 } }

/-- Embedding of cycles_render (src/cycles.cpp:280) for one frame, given
the already computed render key (get_render_key's result): refresh the
buffer parameters from the rect; when the key differs from the stored
one, store the new key, destroy the existing session if any, then
construct the new session, build the scene at the viewport size, reset
with the configured sample budget and start it; finally, if no session
exists return, else draw and query progress status. The returned event
list records the engine calls in program order. -/
def cycles_render (params : SessionParams) (key : Nat) (g : Goxel)
    (rect : Int × Int × Nat × Nat) (s : RState) : RState × List Event :=
  let buf := mkBufferParams rect
  let w := buf.width
  let h := buf.height
  let br :=
    if key ≠ s.last_key then
      let destroyEvs := if s.g_session.isSome then [Event.destroySession] else []
      let scene := create_scene w h g
      let sess : Session :=
        { params := params
        , scene := scene
        , reset_buffer := buf
        , reset_samples := params.samples
        , started := true }
      ( { last_key := key, g_session := some sess, g_buffer_params := buf }
      , destroyEvs ++ [Event.newSession, Event.newScene w h,
                       Event.resetSession buf params.samples, Event.startSession] )
    else
      ( { last_key := s.last_key, g_session := s.g_session, g_buffer_params := buf }
      , ([] : List Event) )
  if br.1.g_session.isSome then
    (br.1, br.2 ++ [Event.draw buf, Event.getStatus])
  else
    br

/-- One full frame: compute the key with get_render_key, then run
cycles_render on it. -/
def cycles_render_frame (crc64 : Nat → List Nat → Nat) (params : SessionParams)
    (g : Goxel) (rect : Int × Int × Nat × Nat) (s : RState) : RState × List Event :=
  cycles_render params (get_render_key crc64 g) g rect s

/-- Modelled from the spec: a concrete incremental 64-bit checksum usable
where a closed instance of crc64 is needed (the real crc64 is goxel
utility code not under src/): fold each byte into the running 64-bit
value, seeded by the previous result. -/
def crcFold : Nat → List Nat → Nat :=
  fun k bs => bs.foldl (fun a b => (a * 257 + b) % 2 ^ 64) (k % 2 ^ 64)

/-- A sample vertex. -/
def vertEx (c : Nat) : VoxelVertex := { pos := (0, 0, 0), color := (c, 0, 0, 255) }

/-- A sample quad with four distinct corners. -/
def quadEx : Quad :=
  { v0 := { pos := (0, 0, 0), color := (10, 20, 30, 255) }
  , v1 := { pos := (1, 0, 0), color := (11, 21, 31, 255) }
  , v2 := { pos := (1, 1, 0), color := (12, 22, 32, 255) }
  , v3 := { pos := (0, 1, 0), color := (13, 23, 33, 255) } }

/-- A sample camera. -/
def camEx : Camera :=
  { ofs := (1, 2, 3)
  , rot := { w := 1, x := 0, y := 0, z := 0 }
  , dist := 10
  , view_mat := [1, 2, 3, 4]
  , proj_mat := [5, 6] }

/-- A sample volume with one block producing one quad. -/
def volEx : Volume := { blocks := [(0, 0, 0)], gen := fun _ => [quadEx], key := 7 }

/-- A sample editor state. -/
def gEx : Goxel := { camera := camEx, render_mesh := volEx }

/-- A volume whose single iterated block tessellates to zero quads. -/
def volEmpty : Volume := { blocks := [(0, 0, 0)], gen := fun _ => [], key := 0 }

/-- An editor state with an all-empty block. -/
def gEmpty : Goxel := { camera := camEx, render_mesh := volEmpty }

/-- A camera whose keyed matrix bytes are all zero. -/
def camZero : Camera :=
  { ofs := (0, 0, 0)
  , rot := { w := 1, x := 0, y := 0, z := 0 }
  , dist := 10
  , view_mat := [0, 0, 0, 0]
  , proj_mat := [0, 0] }

/-- An editor state whose crcFold render key is 0: zero content hash and
all-zero matrix bytes. -/
def gZero : Goxel := { camera := camZero, render_mesh := volEmpty }

/-- A CPU device. -/
def cpuDevice : DeviceInfo := { dtype := DeviceType.CPU }

/-- A CUDA device. -/
def cudaDevice : DeviceInfo := { dtype := DeviceType.CUDA }

/-- Session parameters produced by initialization against a device list
containing a CPU. -/
def params0 : SessionParams := cycles_init [cpuDevice]

/-- The state after a first frame at 800 by 600 with render key 5. -/
def s800 : RState := (cycles_render params0 5 gEx (0, 0, 800, 600) init_rstate).1

/-- A concrete running state holding a session built at 800 by 600. -/
def sEx : RState := s800

/-- The session s800 holds (the one the first frame constructed). -/
def sessEx : Session :=
  { params := params0
  , scene := create_scene 800 600 gEx
  , reset_buffer := mkBufferParams (0, 0, 800, 600)
  , reset_samples := params0.samples
  , started := true }

/- Helper lemmas about list indexing, used to trace the per-quad loops of
create_mesh_for_block. -/

/-- Indexing into the flattening of equally sized chunks: entry c·i + j is
entry j of chunk i. -/
theorem flatten_map_getElem? {α β : Type} [Inhabited β] (f : β → List α) (c : Nat)
    (hf : ∀ b, (f b).length = c) (l : List β) :
    ∀ i j : Nat, j < c → i < l.length →
      ((l.map f).flatten)[c * i + j]? = (f (l.getD i default))[j]? := by
  induction l with
  | nil => intro i j hj hi; simp at hi
  | cons b t ih =>
    intro i j hj hi
    cases i with
    | zero =>
      simp only [List.map_cons, List.flatten_cons, List.getD_cons_zero, Nat.mul_zero,
        Nat.zero_add]
      rw [List.getElem?_append, hf b, if_pos hj]
    | succ n =>
      have hidx : c * (n + 1) + j = c + (c * n + j) := by ring
      simp only [List.map_cons, List.flatten_cons, List.getD_cons_succ, hidx]
      rw [List.getElem?_append_right (by rw [hf b]; exact Nat.le_add_right c _)]
      rw [hf b, Nat.add_sub_cancel_left]
      exact ih n j hj (by simpa using hi)

/-- Indexing into a map over List.range. -/
theorem range_map_getElem? {α : Type} (f : Nat → α) (n i : Nat) (hi : i < n) :
    ((List.range n).map f)[i]? = some (f i) := by
  rw [List.getElem?_map, List.getElem?_range hi]
  rfl

/-- getElem? as some of getD within bounds. -/
theorem getElem?_eq_some_getD {α : Type} (l : List α) (j : Nat) (d : α)
    (h : j < l.length) : l[j]? = some (l.getD j d) := by
  rw [List.getD_eq_getElem?_getD, List.getElem?_eq_getElem h]
  rfl

/-- getD over List.range is the index itself. -/
theorem range_getD {n i : Nat} (hi : i < n) (d : Nat) : (List.range n).getD i d = i := by
  rw [List.getD_eq_getElem?_getD, List.getElem?_range hi]
  rfl

theorem quadVerts_length (q : Quad) : (quadVerts q).length = 4 := rfl

/-- The flattening of equally sized chunks has c times as many entries. -/
theorem flatten_map_length {α β : Type} (f : β → List α) (c : Nat)
    (hf : ∀ b, (f b).length = c) (l : List β) :
    ((l.map f).flatten).length = c * l.length := by
  induction l with
  | nil => simp
  | cons b t ih =>
    simp only [List.map_cons, List.flatten_cons, List.length_append, hf b, ih,
      List.length_cons, Nat.mul_succ]
    omega

/-- Unfolding of create_mesh_for_block on a nonempty quad list. -/
theorem create_mesh_eq (quads : List Quad) (hq : quads ≠ []) :
    create_mesh_for_block quads =
      { verts := ((quads.map quadVerts).flatten).map VoxelVertex.pos
      , tris := ((List.range quads.length).map (fun i =>
          [(4 * i, 4 * i + 1, 4 * i + 2), (4 * i + 2, 4 * i + 3, 4 * i)])).flatten
      , colors := (List.range (6 * quads.length)).map (fun i =>
          (((quads.map quadVerts).flatten).getD (i / 6 * 4) default).color) } := by
  have h0 : ¬ (quads.length = 0) := by simpa [List.length_eq_zero] using hq
  simp [create_mesh_for_block, h0]

/-- C9: for a block whose tessellation yields nb > 0 quads, the mesh has
exactly 4·nb vertices and 2·nb triangles; quad i contributes vertices
4i..4i+3 (its four corners in order) and the triangles (4i,4i+1,4i+2) and
(4i+2,4i+3,4i) (consistent winding), and each of its 6 triangle corners
carries the RGBA color of the quad's first emitted vertex (vertex 4i), so
colors are never shared across faces. -/
theorem create_mesh_layout (quads : List Quad) (hq : quads ≠ []) :
    (create_mesh_for_block quads).verts.length = 4 * quads.length
    ∧ (create_mesh_for_block quads).tris.length = 2 * quads.length
    ∧ (create_mesh_for_block quads).colors.length = 6 * quads.length
    ∧ (∀ i j : Nat, i < quads.length → j < 4 →
        (create_mesh_for_block quads).verts[4 * i + j]?
          = some ((quadVerts (quads.getD i default)).getD j default).pos)
    ∧ (∀ i : Nat, i < quads.length →
        (create_mesh_for_block quads).tris[2 * i]?
            = some (4 * i, 4 * i + 1, 4 * i + 2)
        ∧ (create_mesh_for_block quads).tris[2 * i + 1]?
            = some (4 * i + 2, 4 * i + 3, 4 * i))
    ∧ (∀ i j : Nat, i < quads.length → j < 6 →
        (create_mesh_for_block quads).colors[6 * i + j]?
          = some (quads.getD i default).v0.color) := by
  rw [create_mesh_eq quads hq]
  refine ⟨?_, ?_, ?_, ?_, ?_, ?_⟩
  · rw [List.length_map, flatten_map_length quadVerts 4 quadVerts_length]
  · rw [flatten_map_length
      (fun i => [(4 * i, 4 * i + 1, 4 * i + 2), (4 * i + 2, 4 * i + 3, 4 * i)]) 2
      (fun i => rfl), List.length_range]
  · rw [List.length_map, List.length_range]
  · intro i j hi hj
    rw [List.getElem?_map,
      flatten_map_getElem? quadVerts 4 quadVerts_length quads i j hj hi,
      getElem?_eq_some_getD _ j default (by rw [quadVerts_length]; exact hj)]
    rfl
  · intro i hi
    have hr : i < (List.range quads.length).length := by simpa using hi
    constructor
    · have h := flatten_map_getElem?
        (fun k => [(4 * k, 4 * k + 1, 4 * k + 2), (4 * k + 2, 4 * k + 3, 4 * k)]) 2
        (fun k => rfl) (List.range quads.length) i 0 (by omega) hr
      simpa [List.getElem?_range hi] using h
    · have h := flatten_map_getElem?
        (fun k => [(4 * k, 4 * k + 1, 4 * k + 2), (4 * k + 2, 4 * k + 3, 4 * k)]) 2
        (fun k => rfl) (List.range quads.length) i 1 (by omega) hr
      simpa [List.getElem?_range hi] using h
  · intro i j hi hj
    have hlt : 6 * i + j < 6 * quads.length := by omega
    rw [range_map_getElem? _ _ _ hlt]
    have hdiv : (6 * i + j) / 6 = i := by omega
    rw [hdiv]
    have hfl : ((quads.map quadVerts).flatten).getD (i * 4) default
        = (quads.getD i default).v0 := by
      have h40 : i * 4 = 4 * i + 0 := by ring
      rw [List.getD_eq_getElem?_getD, h40,
        flatten_map_getElem? quadVerts 4 quadVerts_length quads i 0 (by omega) hi]
      rfl
    rw [hfl]

/-- Witness for create_mesh_layout at the one-quad tessellation. -/
theorem create_mesh_layout_witness :
    (create_mesh_for_block [quadEx]).verts.length = 4 * [quadEx].length
    ∧ (create_mesh_for_block [quadEx]).tris.length = 2 * [quadEx].length
    ∧ (create_mesh_for_block [quadEx]).colors.length = 6 * [quadEx].length
    ∧ (∀ i j : Nat, i < [quadEx].length → j < 4 →
        (create_mesh_for_block [quadEx]).verts[4 * i + j]?
          = some ((quadVerts ([quadEx].getD i default)).getD j default).pos)
    ∧ (∀ i : Nat, i < [quadEx].length →
        (create_mesh_for_block [quadEx]).tris[2 * i]?
            = some (4 * i, 4 * i + 1, 4 * i + 2)
        ∧ (create_mesh_for_block [quadEx]).tris[2 * i + 1]?
            = some (4 * i + 2, 4 * i + 3, 4 * i))
    ∧ (∀ i j : Nat, i < [quadEx].length → j < 6 →
        (create_mesh_for_block [quadEx]).colors[6 * i + j]?
          = some ([quadEx].getD i default).v0.color) :=
  create_mesh_layout [quadEx] (by simp)

/-- C1 counterexample: for a volume whose single iterated block
tessellates to zero quads, create_scene still adds one mesh object and
one mesh for that block — the scene does not contain mesh objects only
for blocks with at least one visible face. -/
theorem create_scene_keeps_empty_blocks :
    (gEmpty.render_mesh.gen (0, 0, 0)).length = 0
    ∧ (create_scene 800 600 gEmpty).objects.length = 1
    ∧ (create_scene 800 600 gEmpty).meshes.length = 1 :=
  ⟨rfl, rfl, rfl⟩

/-- C1 amended: the tessellator does produce an empty result for a block
with zero visible faces (no vertices, triangles or corner colors), but
scene assembly does not skip such blocks: create_scene adds exactly one
mesh object and one mesh per iterated block, regardless of visible
faces. -/
theorem create_scene_object_per_block (g : Goxel) (w h : Nat)
    (bp : Int × Int × Int) (hbp : g.render_mesh.gen bp = []) :
    (create_scene w h g).objects.length = g.render_mesh.blocks.length
    ∧ (create_scene w h g).meshes.length = g.render_mesh.blocks.length
    ∧ create_mesh_for_block (g.render_mesh.gen bp)
        = { verts := [], tris := [], colors := [] } := by
  refine ⟨?_, ?_, ?_⟩
  · simp [create_scene]
  · simp [create_scene]
  · rw [hbp]; rfl

/-- Witness for create_scene_object_per_block at the empty-block state. -/
theorem create_scene_object_per_block_witness :
    (create_scene 800 600 gEmpty).objects.length = gEmpty.render_mesh.blocks.length
    ∧ (create_scene 800 600 gEmpty).meshes.length = gEmpty.render_mesh.blocks.length
    ∧ create_mesh_for_block (gEmpty.render_mesh.gen (0, 0, 0))
        = { verts := [], tris := [], colors := [] } :=
  create_scene_object_per_block gEmpty 800 600 (0, 0, 0) rfl

/-- The crcFold accumulator stays below 2^64. -/
theorem crcFold_acc_lt (t : List Nat) :
    ∀ a : Nat, a < 2 ^ 64 → t.foldl (fun x b => (x * 257 + b) % 2 ^ 64) a < 2 ^ 64 := by
  induction t with
  | nil => intro a ha; simpa using ha
  | cons b t ih =>
    intro a ha
    simp only [List.foldl_cons]
    exact ih _ (Nat.mod_lt _ (by norm_num))

/-- crcFold is a 64-bit checksum. -/
theorem crcFold_lt (k : Nat) (bs : List Nat) : crcFold k bs < 2 ^ 64 :=
  crcFold_acc_lt bs (k % 2 ^ 64) (Nat.mod_lt _ (by norm_num))

/-- C2: the render key is exactly the volume content hash folded with the
view-matrix bytes and then the projection-matrix bytes through the
incremental checksum, each fold seeded by the previous result; it is a
64-bit value whenever the checksum is 64-bit; and bit-identical inputs
give the identical key (the function is pure and deterministic). -/
theorem get_render_key_correct (crc64 : Nat → List Nat → Nat) (g g2 : Goxel)
    (hbound : ∀ k bs, crc64 k bs < 2 ^ 64)
    (hm : g.render_mesh.key = g2.render_mesh.key)
    (hv : g.camera.view_mat = g2.camera.view_mat)
    (hp : g.camera.proj_mat = g2.camera.proj_mat) :
    get_render_key crc64 g
        = crc64 (crc64 g.render_mesh.key g.camera.view_mat) g.camera.proj_mat
    ∧ get_render_key crc64 g < 2 ^ 64
    ∧ get_render_key crc64 g = get_render_key crc64 g2 := by
  refine ⟨rfl, hbound _ _, ?_⟩
  simp only [get_render_key, hm, hv, hp]

/-- Witness for get_render_key_correct with the concrete checksum. -/
theorem get_render_key_correct_witness :
    get_render_key crcFold gEx
        = crcFold (crcFold gEx.render_mesh.key gEx.camera.view_mat) gEx.camera.proj_mat
    ∧ get_render_key crcFold gEx < 2 ^ 64
    ∧ get_render_key crcFold gEx = get_render_key crcFold gEx :=
  get_render_key_correct crcFold gEx gEx crcFold_lt rfl rfl rfl

/-- C7: the camera matrix handed to the renderer is the transpose of the
composition, applied in order to the identity, of the translation by the
negated camera offset, the camera rotation with its scalar (first)
component sign-inverted, the translation by the orbit distance along the
view axis, and the (1, 1, -1) handedness flip. -/
theorem camera_matrix_spec (cam : Camera) :
    camera_matrix cam =
      Matrix.transpose
        (translateM (-cam.ofs.1) (-cam.ofs.2.1) (-cam.ofs.2.2)
          * quatToMat { w := -cam.rot.w, x := cam.rot.x, y := cam.rot.y, z := cam.rot.z }
          * translateM 0 0 cam.dist
          * scaleM 1 1 (-1)) := by
  simp only [camera_matrix, one_mul]

/-- C3: when the computed key equals the stored key, no rebuild occurs:
the existing session is not destroyed, no session or scene is
constructed, the stored key is unchanged, and the only engine calls are
the draw of the accumulated image and the status query; a second call
with the same key leaves the session identical to the original one. -/
theorem cycles_render_no_rebuild (params : SessionParams) (key : Nat) (g : Goxel)
    (rect : Int × Int × Nat × Nat) (s : RState) (sess : Session)
    (hsess : s.g_session = some sess) (hkey : key = s.last_key) :
    (cycles_render params key g rect s).1.g_session = s.g_session
    ∧ (cycles_render params key g rect s).1.last_key = s.last_key
    ∧ (cycles_render params key g rect s).2
        = [Event.draw (mkBufferParams rect), Event.getStatus]
    ∧ (cycles_render params key g rect (cycles_render params key g rect s).1).1.g_session
        = s.g_session := by
  subst hkey
  simp [cycles_render, hsess]

/-- Witness for cycles_render_no_rebuild at the concrete built state. -/
theorem cycles_render_no_rebuild_witness :
    (cycles_render params0 5 gEx (0, 0, 800, 600) sEx).1.g_session = sEx.g_session
    ∧ (cycles_render params0 5 gEx (0, 0, 800, 600) sEx).1.last_key = sEx.last_key
    ∧ (cycles_render params0 5 gEx (0, 0, 800, 600) sEx).2
        = [Event.draw (mkBufferParams (0, 0, 800, 600)), Event.getStatus]
    ∧ (cycles_render params0 5 gEx (0, 0, 800, 600)
        (cycles_render params0 5 gEx (0, 0, 800, 600) sEx).1).1.g_session
        = sEx.g_session :=
  cycles_render_no_rebuild params0 5 gEx (0, 0, 800, 600) sEx sessEx rfl rfl

/-- C4: on key mismatch with a live session, the controller destroys the
session first and only afterwards constructs the replacement: the engine
calls are, in order, destroy, new session, new scene at the viewport
dimensions, reset with the sample budget fixed at initialization (20
samples), and start; the parameters from initialization carry start
resolution 64 and progressive mode; the new state stores the new key and
the fresh session. -/
theorem cycles_render_rebuild (devices : List DeviceInfo) (key : Nat) (g : Goxel)
    (rect : Int × Int × Nat × Nat) (s : RState) (sess : Session)
    (hsess : s.g_session = some sess) (hkey : key ≠ s.last_key) :
    cycles_render (cycles_init devices) key g rect s
      = ( { last_key := key
          , g_session := some
              { params := cycles_init devices
              , scene := create_scene (mkBufferParams rect).width
                  (mkBufferParams rect).height g
              , reset_buffer := mkBufferParams rect
              , reset_samples := 20
              , started := true }
          , g_buffer_params := mkBufferParams rect }
        , [Event.destroySession, Event.newSession,
           Event.newScene (mkBufferParams rect).width (mkBufferParams rect).height,
           Event.resetSession (mkBufferParams rect) 20, Event.startSession,
           Event.draw (mkBufferParams rect), Event.getStatus] )
    ∧ (cycles_init devices).start_resolution = 64
    ∧ (cycles_init devices).progressive = true := by
  refine ⟨?_, rfl, rfl⟩
  simp [cycles_render, hkey, hsess, cycles_init]

/-- Witness for cycles_render_rebuild at the concrete built state. -/
theorem cycles_render_rebuild_witness :
    cycles_render (cycles_init [cpuDevice]) 6 gEx (0, 0, 800, 600) sEx
      = ( { last_key := 6
          , g_session := some
              { params := cycles_init [cpuDevice]
              , scene := create_scene (mkBufferParams (0, 0, 800, 600)).width
                  (mkBufferParams (0, 0, 800, 600)).height gEx
              , reset_buffer := mkBufferParams (0, 0, 800, 600)
              , reset_samples := 20
              , started := true }
          , g_buffer_params := mkBufferParams (0, 0, 800, 600) }
        , [Event.destroySession, Event.newSession,
           Event.newScene (mkBufferParams (0, 0, 800, 600)).width
             (mkBufferParams (0, 0, 800, 600)).height,
           Event.resetSession (mkBufferParams (0, 0, 800, 600)) 20, Event.startSession,
           Event.draw (mkBufferParams (0, 0, 800, 600)), Event.getStatus] )
    ∧ (cycles_init [cpuDevice]).start_resolution = 64
    ∧ (cycles_init [cpuDevice]).progressive = true :=
  cycles_render_rebuild [cpuDevice] 6 gEx (0, 0, 800, 600) sEx sessEx rfl (by decide)

/-- C5 counterexample: a first frame after initialization whose computed
render key is 0 (equal to the initial stored key) builds nothing: no
session is created, no engine call is made, and the call just returns —
the Idle to Rendering transition does not happen on this first frame. -/
theorem first_frame_key_zero_builds_nothing :
    get_render_key crcFold gZero = 0
    ∧ (cycles_render_frame crcFold params0 gZero (0, 0, 800, 600) init_rstate).1.g_session
        = none
    ∧ (cycles_render_frame crcFold params0 gZero (0, 0, 800, 600) init_rstate).2 = [] :=
  ⟨rfl, rfl, rfl⟩

/-- C5 amended: on the first render call after initialization the
controller builds a scene and starts a session exactly when the computed
key differs from the initial stored key 0; with key 0 no session is
created and nothing is drawn. -/
theorem first_frame_build_iff (params : SessionParams) (key : Nat) (g : Goxel)
    (rect : Int × Int × Nat × Nat) :
    (cycles_render params key g rect init_rstate).1.g_session.isSome = decide (key ≠ 0)
    ∧ (cycles_render params key g rect init_rstate).2
      = (if key ≠ 0 then
          [Event.newSession,
           Event.newScene (mkBufferParams rect).width (mkBufferParams rect).height,
           Event.resetSession (mkBufferParams rect) params.samples, Event.startSession,
           Event.draw (mkBufferParams rect), Event.getStatus]
        else []) := by
  by_cases hk : key = 0
  · subst hk
    simp [cycles_render, init_rstate]
  · simp [cycles_render, init_rstate, hk]

/-- C6: the code evaluated at the failing input — after a first frame at
800 by 600 with key 5, a second frame at 1024 by 768 with volume and
camera unchanged (same key) performs no rebuild: the session is kept and
only drawn, its reset buffer still 800 wide while the frame's buffer
parameters are 1024 wide — a mismatched buffer, where the claim (and the
spec) require a rebuild on viewport resize alone. -/
theorem resize_without_rebuild :
    (cycles_render params0 5 gEx (0, 0, 1024, 768) s800).1.g_session = s800.g_session
    ∧ (cycles_render params0 5 gEx (0, 0, 1024, 768) s800).2
        = [Event.draw (mkBufferParams (0, 0, 1024, 768)), Event.getStatus]
    ∧ s800.g_session.map Session.reset_buffer = some (mkBufferParams (0, 0, 800, 600))
    ∧ (cycles_render params0 5 gEx (0, 0, 1024, 768) s800).1.g_buffer_params
        = mkBufferParams (0, 0, 1024, 768)
    ∧ (mkBufferParams (0, 0, 800, 600)).width ≠ (mkBufferParams (0, 0, 1024, 768)).width :=
  ⟨rfl, rfl, rfl, rfl, by decide⟩

/-- C8 counterexample: initializing against a device list containing no
CPU-type device does not fail: cycles_init returns normally, with the
session parameters filled and the device left unset. -/
theorem cycles_init_no_cpu_proceeds :
    cycles_init [cudaDevice]
      = { progressive := true, start_resolution := 64, device := none, samples := 20 } :=
  rfl

/-- C8 amended: when the enumerated devices contain no CPU-type device,
initialization proceeds silently rather than failing: it returns session
parameters with progressive mode, start resolution 64, 20 samples and
the device left unset — there is no error path. -/
theorem cycles_init_without_cpu (devices : List DeviceInfo)
    (h : devices.find? (fun d => d.dtype == DeviceType.CPU) = none) :
    cycles_init devices
      = { progressive := true, start_resolution := 64, device := none, samples := 20 } := by
  have hts : type_from_string ("CPU") = DeviceType.CPU := rfl
  simp only [cycles_init, hts, h]

/-- Witness for cycles_init_without_cpu on a CUDA-only device list. -/
theorem cycles_init_without_cpu_witness :
    cycles_init [cudaDevice]
      = { progressive := true, start_resolution := 64, device := none, samples := 20 } :=
  cycles_init_without_cpu [cudaDevice] rfl

/-- C10: when no session exists and the computed key equals the stored
key, the call creates no session and makes no engine call at all (no
draw, no progress query): the null session handle is never
dereferenced. -/
theorem no_session_key_match_returns (params : SessionParams) (key : Nat) (g : Goxel)
    (rect : Int × Int × Nat × Nat) (s : RState)
    (hsess : s.g_session = none) (hkey : key = s.last_key) :
    (cycles_render params key g rect s).1.g_session = none
    ∧ (cycles_render params key g rect s).2 = [] := by
  subst hkey
  simp [cycles_render, hsess]

/-- Witness for no_session_key_match_returns at the initial state. -/
theorem no_session_key_match_returns_witness :
    (cycles_render params0 0 gEx (0, 0, 800, 600) init_rstate).1.g_session = none
    ∧ (cycles_render params0 0 gEx (0, 0, 800, 600) init_rstate).2 = [] :=
  no_session_key_match_returns params0 0 gEx (0, 0, 800, 600) init_rstate rfl rfl

end GoxelCycles
